import Mathlib

/-!
Verification of the Pokepelago client's progression reconciliation engine.

The definitions below are a shallow embedding of `src/context/GameContext.tsx`
(and the guess-input component) of the Pokepelago browser client: the offset
tables and their detection, the milestone deriver (`checkExtendedLocations`),
the eligibility evaluator (`isPokemonGuessable`), the connected-handler state
sync, and the consumable-item operations.  All machine integers in the source
are small non-negative JS numbers, so they are modelled as `Nat`; JS `Set`
objects whose iteration order does not matter are modelled as `Finset`, and
ones whose insertion order matters are modelled as `List` built in insertion
order.
-/

namespace Pokepelago

/-- The item-id base, `ITEM_OFFSET = 8574000` in GameContext.tsx (never
re-assigned by either offset-table branch). -/
def ITEM_OFFSET : Nat := 8574000

/-- The mutable offset constants of GameContext.tsx (lines 151-159), grouped
into a record: exactly one of two versions is active per session. -/
structure OffsetTable where
  LOCATION_OFFSET : Nat
  STARTER_OFFSET : Nat
  MILESTONE_OFFSET : Nat
  TYPE_MILESTONE_OFFSET : Nat
  TYPE_MILESTONE_MULTIPLIER : Nat
  TYPE_ITEM_OFFSET : Nat
  USEFUL_ITEM_OFFSET : Nat
  TRAP_ITEM_OFFSET : Nat
  deriving DecidableEq, Repr

/-- The legacy APWorld offset table (GameContext.tsx initial values,
lines 151-159, re-asserted in the `connected` handler lines 707-716). -/
def legacyTable : OffsetTable :=
  { LOCATION_OFFSET := 8571000
    STARTER_OFFSET := 500
    MILESTONE_OFFSET := 1000
    TYPE_MILESTONE_OFFSET := 2000
    TYPE_MILESTONE_MULTIPLIER := 50
    TYPE_ITEM_OFFSET := 1100
    USEFUL_ITEM_OFFSET := 2000
    TRAP_ITEM_OFFSET := 3000 }

/-- The new (Gen 9+) APWorld offset table (GameContext.tsx `connected`
handler, lines 697-706). -/
def newTable : OffsetTable :=
  { LOCATION_OFFSET := 8560000
    STARTER_OFFSET := 100000
    MILESTONE_OFFSET := 10000
    TYPE_MILESTONE_OFFSET := 20000
    TYPE_MILESTONE_MULTIPLIER := 1000
    TYPE_ITEM_OFFSET := 2000
    USEFUL_ITEM_OFFSET := 3000
    TRAP_ITEM_OFFSET := 4000 }

/-- `allLocs.some((id) => id >= 8560000 && id < 8570000)` — the new-version
probe run over the union of `missing_locations` and `checked_locations`
(GameContext.tsx lines 691-696). -/
def detectIsNewVersion (allLocs : List Nat) : Bool :=
  allLocs.any (fun id => decide (8560000 ≤ id) && decide (id < 8570000))

/-- Offset-table selection in the `connected` handler (lines 696-717). -/
def detectTable (allLocs : List Nat) : OffsetTable :=
  if detectIsNewVersion allLocs then newTable else legacyTable

/-- Local id → network location id: `LOCATION_OFFSET + id`
(e.g. GameContext.tsx line 425). -/
def toLocationId (T : OffsetTable) (localId : Nat) : Nat :=
  T.LOCATION_OFFSET + localId

/-- Network location id → local id: `locId - LOCATION_OFFSET`
(e.g. GameContext.tsx line 724). -/
def toLocalId (T : OffsetTable) (locationId : Nat) : Nat :=
  locationId - T.LOCATION_OFFSET

/-- `t.charAt(0).toUpperCase() + t.slice(1)` on a type name
(GameContext.tsx lines 505, 588). -/
def capitalizeType (s : String) : String :=
  match s.data with
  | [] => s
  | c :: cs => String.mk (c.toUpper :: cs)

/-- Per-creature static metadata: the `types` array of
`pokemon_metadata.json` entries (the file is bundled data; entries carry a
lowercase type list of 1-2 entries). -/
structure PokeMeta where
  types : List String
  deriving DecidableEq, Repr

/-- The metadata store `pokemonMetadata` keyed by numeric id; `none` models a
missing entry. -/
def MetaStore : Type := Nat → Option PokeMeta

/-- Capitalized type list of an id, `[]` when metadata is missing. -/
def capTypes (meta : MetaStore) (id : Nat) : List String :=
  match meta id with
  | none => []
  | some d => d.types.map capitalizeType

/-- The fixed 18-entry `typesList` of `checkExtendedLocations`
(GameContext.tsx line 529). -/
def typesList : List String :=
  ["Normal", "Fire", "Water", "Grass", "Electric", "Ice", "Fighting",
   "Poison", "Ground", "Flying", "Psychic", "Bug", "Rock", "Ghost",
   "Dragon", "Fairy", "Steel", "Dark"]

/-- The fixed `typeSteps` list (GameContext.tsx line 530). -/
def typeStepsList : List Nat := [1, 2, 5, 10, 15, 20, 30, 40, 50]

/-- `starterTypeCounts` (GameContext.tsx lines 532-537): Grass, Poison, Fire
and Water each have a baseline of 1, every other type 0. -/
def starterTypeCount (name : String) : Nat :=
  if name = "Grass" ∨ name = "Poison" ∨ name = "Fire" ∨ name = "Water" then 1 else 0

/-- Remove later duplicates, keeping the first occurrence of each value:
the JS idiom `.filter((v, i, a) => a.indexOf(v) === i)`
(GameContext.tsx line 515). -/
def dedupFirstAux (seen : List Nat) : List Nat → List Nat
  | [] => []
  | x :: xs => if x ∈ seen then dedupFirstAux seen xs else x :: dedupFirstAux (x :: seen) xs

def dedupFirst (l : List Nat) : List Nat := dedupFirstAux [] l

/-- Insert into an ascending list, for the numeric `.sort((a, b) => a - b)`
(GameContext.tsx line 515). -/
def insertAsc (x : Nat) : List Nat → List Nat
  | [] => [x]
  | y :: ys => if x ≤ y then x :: y :: ys else y :: insertAsc x ys

/-- Ascending numeric sort. -/
def sortAsc (l : List Nat) : List Nat := l.foldr insertAsc []

/-- The `globalMilestones` threshold list (GameContext.tsx lines 511-515):
`[1, 5, 10, 20, 30, ..., 380, 148, 248, 383]`, de-duplicated and sorted
ascending. -/
def globalMilestonesList : List Nat :=
  sortAsc (dedupFirst
    ([1, 5, 10] ++ (List.range 37).map (fun i => (i + 2) * 10) ++ [148, 248, 383]))

/-- The per-id filter of the catch-counting loop in `checkExtendedLocations`
(GameContext.tsx lines 494-499): skip Oak's-Lab starter ids, skip global
milestone pseudo-ids, skip type milestone pseudo-ids; everything else in
`checkedIds` counts. -/
def isCountedCatch (T : OffsetTable) (id : Nat) : Bool :=
  !(decide (T.STARTER_OFFSET ≤ id) && decide (id < T.STARTER_OFFSET + 20)) &&
  !(decide (T.MILESTONE_OFFSET ≤ id) && decide (id < T.MILESTONE_OFFSET + 2000)) &&
  !(decide (T.TYPE_MILESTONE_OFFSET ≤ id))

/-- `totalCatches` of `checkExtendedLocations` (lines 490-499). -/
def totalCatches (T : OffsetTable) (checked : Finset Nat) : Nat :=
  (checked.filter (fun id => isCountedCatch T id = true)).card

/-- `typeCounts[cType]` of `checkExtendedLocations` (lines 500-508): every
counted id contributes one per occurrence of the (capitalized) type in its
metadata type list; missing metadata contributes nothing. -/
def typeCount (meta : MetaStore) (T : OffsetTable) (checked : Finset Nat)
    (name : String) : Nat :=
  Finset.sum (checked.filter (fun id => isCountedCatch T id = true))
    (fun id => (capTypes meta id).count name)

/-- The local pseudo-id of the global milestone for threshold `count`:
`apLocationId - LOCATION_OFFSET` where
`apLocationId = LOCATION_OFFSET + MILESTONE_OFFSET + count` (lines 519-520). -/
def globalPseudoId (T : OffsetTable) (count : Nat) : Nat :=
  T.LOCATION_OFFSET + T.MILESTONE_OFFSET + count - T.LOCATION_OFFSET

/-- The local pseudo-id of the type milestone for `(typeIndex, step)`:
`apLocationId - LOCATION_OFFSET` where `apLocationId = LOCATION_OFFSET +
TYPE_MILESTONE_OFFSET + index * TYPE_MILESTONE_MULTIPLIER + step`
(lines 548-549). -/
def typePseudoId (T : OffsetTable) (index step : Nat) : Nat :=
  T.LOCATION_OFFSET + T.TYPE_MILESTONE_OFFSET + index * T.TYPE_MILESTONE_MULTIPLIER + step
    - T.LOCATION_OFFSET

theorem globalPseudoId_eq (T : OffsetTable) (count : Nat) :
    globalPseudoId T count = T.MILESTONE_OFFSET + count := by
  unfold globalPseudoId; omega

theorem typePseudoId_eq (T : OffsetTable) (index step : Nat) :
    typePseudoId T index step =
      T.TYPE_MILESTONE_OFFSET + index * T.TYPE_MILESTONE_MULTIPLIER + step := by
  unfold typePseudoId; omega

/-- Local pseudo-ids newly emitted by the global-milestones pass of
`checkExtendedLocations` (lines 510-526), in threshold order: each threshold
with `max(0, totalCatches - 3) >= count` whose pseudo-id is not yet in the
`checkedIds` snapshot. `Nat` subtraction is the clamped `Math.max(0, _ - 3)`. -/
def globalLocals (T : OffsetTable) (checked : Finset Nat) : List Nat :=
  let newCatches := totalCatches T checked - 3
  (globalMilestonesList.filter
      (fun count => decide (count ≤ newCatches) && !(decide (globalPseudoId T count ∈ checked)))).map
    (globalPseudoId T)

/-- Local pseudo-ids newly emitted by one type's pass of
`checkExtendedLocations` (lines 539-556): skipped entirely when type locks
are on and the type key is missing; otherwise each step with
`max(0, rawCount - starterBaseline) >= step` whose pseudo-id is not yet in
the `checkedIds` snapshot. -/
def typeLocalsFor (meta : MetaStore) (T : OffsetTable)
    (typeLocksEnabled : Bool) (typeUnlocks : Finset String)
    (checked : Finset Nat) (index : Nat) (name : String) : List Nat :=
  if typeLocksEnabled && !(decide (name ∈ typeUnlocks)) then []
  else
    let newTypeCatches := typeCount meta T checked name - starterTypeCount name
    (typeStepsList.filter
        (fun step => decide (step ≤ newTypeCatches) && !(decide (typePseudoId T index step ∈ checked)))).map
      (typePseudoId T index)

/-- All type-milestone local pseudo-ids emitted in one run, in
`typesList` order. -/
def typeLocals (meta : MetaStore) (T : OffsetTable)
    (typeLocksEnabled : Bool) (typeUnlocks : Finset String)
    (checked : Finset Nat) : List Nat :=
  typesList.enum.flatMap (fun p => typeLocalsFor meta T typeLocksEnabled typeUnlocks checked p.1 p.2)

/-- All local pseudo-ids emitted by one run of `checkExtendedLocations`:
global milestones first, then the per-type milestones. -/
def deriveLocals (meta : MetaStore) (T : OffsetTable)
    (typeLocksEnabled : Bool) (typeUnlocks : Finset String)
    (checked : Finset Nat) : List Nat :=
  globalLocals T checked ++ typeLocals meta T typeLocksEnabled typeUnlocks checked

/-- One run of `checkExtendedLocations` (lines 489-557): the emitted server
check requests (`client.check(apLocationId)` values, in emission order) and
the resulting `checkedIds` set (the snapshot plus every emitted local
pseudo-id). -/
def deriveMilestones (meta : MetaStore) (T : OffsetTable)
    (typeLocksEnabled : Bool) (typeUnlocks : Finset String)
    (checked : Finset Nat) : List Nat × Finset Nat :=
  let locals := deriveLocals meta T typeLocksEnabled typeUnlocks checked
  (locals.map (fun l => T.LOCATION_OFFSET + l), checked ∪ locals.toFinset)

/-- The empty metadata store (no id has an entry). -/
def emptyMetaStore : MetaStore := fun _ => none

/-- One `markChecked` step followed by the deriver effect: `checkPokemon`
adds the id to `checkedIds` (lines 417-423) and, since `checkedIds` is a
dependency of the extended-locations effect (line 560), one run of
`checkExtendedLocations` follows.  The accumulated list holds every milestone
check request the deriver has emitted so far this session. -/
def sessionStep (meta : MetaStore) (T : OffsetTable)
    (typeLocksEnabled : Bool) (typeUnlocks : Finset String)
    (st : Finset Nat × List Nat) (id : Nat) : Finset Nat × List Nat :=
  let checked1 := insert id st.1
  let d := deriveMilestones meta T typeLocksEnabled typeUnlocks checked1
  (d.2, st.2 ++ d.1)

/-- A session: a sequence of `markChecked` calls starting from an initial
checked set, each followed by a deriver run. -/
def session (meta : MetaStore) (T : OffsetTable)
    (typeLocksEnabled : Bool) (typeUnlocks : Finset String)
    (init : Finset Nat) (ops : List Nat) : Finset Nat × List Nat :=
  ops.foldl (sessionStep meta T typeLocksEnabled typeUnlocks) (init, [])

/-- Every local pseudo-id either family of the deriver can ever emit, for a
fixed offset table (thresholds in list order, then all (type, step) pairs). -/
def candidateLocals (T : OffsetTable) : List Nat :=
  globalMilestonesList.map (globalPseudoId T) ++
    typesList.enum.flatMap (fun p => typeStepsList.map (typePseudoId T p.1))

/-- `GENERATIONS` of `src/types/pokemon.ts`. -/
structure GenerationRange where
  label : String
  region : String
  startId : Nat
  endId : Nat
  deriving DecidableEq, Repr

/-- The fixed generation table of `src/types/pokemon.ts`. -/
def GENERATIONS : List GenerationRange :=
  [⟨"Gen 1", "Kanto", 1, 151⟩,
   ⟨"Gen 2", "Johto", 152, 251⟩,
   ⟨"Gen 3", "Hoenn", 252, 386⟩,
   ⟨"Gen 4", "Sinnoh", 387, 493⟩,
   ⟨"Gen 5", "Unova", 494, 649⟩,
   ⟨"Gen 6", "Kalos", 650, 721⟩,
   ⟨"Gen 7", "Alola", 722, 809⟩,
   ⟨"Gen 8", "Galar", 810, 905⟩,
   ⟨"Gen 9", "Paldea", 906, 1025⟩]

/-- The client's `gameMode` values; the React state is nullable, so the
evaluator takes an `Option GameMode`. -/
inductive GameMode
  | archipelago
  | standalone
  deriving DecidableEq, Repr

/-- The result object of `isPokemonGuessable` (only fields this function
ever sets; absent JS fields are the defaults). -/
structure GuessResult where
  canGuess : Bool
  reason : Option String := none
  missingPokemon : Bool := false
  missingTypes : Option (List String) := none
  deriving DecidableEq, Repr

/-- `isPokemonGuessable` (GameContext.tsx lines 562-602): missing metadata
fails open; standalone mode gates only on the generation filter; otherwise
the unlocked check, then the type-locks check, then eligible. -/
def isPokemonGuessable (meta : MetaStore) (gameMode : Option GameMode)
    (generationFilter : List Nat) (unlockedIds : Finset Nat)
    (typeLocksEnabled : Bool) (typeUnlocks : Finset String)
    (id : Nat) : GuessResult :=
  match meta id with
  | none => { canGuess := true }
  | some data =>
    if gameMode = some GameMode.standalone then
      match GENERATIONS.findIdx? (fun g => decide (g.startId ≤ id) && decide (id ≤ g.endId)) with
      | none => { canGuess := false, reason := some "Generation not enabled in settings" }
      | some genIdx =>
        if genIdx ∈ generationFilter then { canGuess := true }
        else { canGuess := false, reason := some "Generation not enabled in settings" }
    else if id ∉ unlockedIds then
      { canGuess := false
        reason := some "You have not found this Pokemon yet!"
        missingPokemon := true }
    else if typeLocksEnabled then
      let missingList := data.types.filter (fun t => !(decide (capitalizeType t ∈ typeUnlocks)))
      if missingList.length > 0 then
        let missing := missingList.map capitalizeType
        { canGuess := false
          reason := some ("Missing Type Keys: " ++ String.intercalate ", " missing)
          missingTypes := some missing }
      else { canGuess := true }
    else { canGuess := true }

/-- The login snapshot (`ConnectedPacket` fields the handler reads, plus the
`client.items.received` item-id list in receive order). -/
structure Snapshot where
  missing_locations : List Nat
  checked_locations : List Nat
  received_items : List Nat
  deriving DecidableEq, Repr

/-- A JS `Set` built by repeated insertion, as an insertion-ordered
duplicate-free list. -/
def jsSetInsert (l : List Nat) (x : Nat) : List Nat :=
  if x ∈ l then l else l ++ [x]

/-- `new Set(list)` / iterating `.add`, keeping JS insertion order. -/
def jsSetFromList (l : List Nat) : List Nat :=
  l.foldl jsSetInsert []

/-- `checkedIds` rebuilt from the snapshot (`connected` handler lines
719-727): location ids in `[LOCATION_OFFSET, LOCATION_OFFSET + 200000]`
translated to local ids. -/
def syncCheckedIds (T : OffsetTable) (snap : Snapshot) : Finset Nat :=
  ((snap.checked_locations.filter
      (fun locId => decide (T.LOCATION_OFFSET ≤ locId) && decide (locId ≤ T.LOCATION_OFFSET + 200000))).map
    (fun locId => locId - T.LOCATION_OFFSET)).toFinset

/-- `newUnlocked` rebuilt from the received-items list (lines 729-737), in
JS `Set` insertion order: item ids in `(ITEM_OFFSET, ITEM_OFFSET + 1025]`
translated to dex ids. -/
def syncUnlockedList (snap : Snapshot) : List Nat :=
  jsSetFromList
    ((snap.received_items.filter
        (fun i => decide (ITEM_OFFSET < i) && decide (i ≤ ITEM_OFFSET + 1025))).map
      (fun i => i - ITEM_OFFSET))

/-- `shinyIds` reconstruction (lines 739-744): only performed when the
snapshot contains at least one shiny-upgrade item (id 105000); otherwise the
prior value is left in place. -/
def syncShinyIds (snap : Snapshot) (priorShiny : Finset Nat) : Finset Nat :=
  let shinyCount := snap.received_items.count 105000
  if shinyCount > 0 then ((syncUnlockedList snap).take shinyCount).toFinset
  else priorShiny

/-- `typeUnlocks` rebuilt from the received-items list (lines 746-754). -/
def syncTypeUnlocks (T : OffsetTable) (snap : Snapshot) : Finset String :=
  ((snap.received_items.filter
      (fun i => decide (ITEM_OFFSET + T.TYPE_ITEM_OFFSET ≤ i) &&
        decide (i ≤ ITEM_OFFSET + T.TYPE_ITEM_OFFSET + 17))).map
    (fun i => typesList.getD (i - (ITEM_OFFSET + T.TYPE_ITEM_OFFSET)) "")).toFinset

/-- The four claim-relevant client sets. -/
structure ClientState where
  unlockedIds : Finset Nat
  checkedIds : Finset Nat
  shinyIds : Finset Nat
  typeUnlocks : Finset String
  deriving DecidableEq

/-- The state-sync portion of the `connected` handler (lines 687-754):
detect the offset table from the union of `missing_locations` and
`checked_locations`, then rebuild the four sets from the snapshot. -/
def connectedSync (st : ClientState) (snap : Snapshot) : ClientState :=
  let T := detectTable (snap.missing_locations ++ snap.checked_locations)
  { st with
    checkedIds := syncCheckedIds T snap
    unlockedIds := (syncUnlockedList snap).toFinset
    shinyIds := syncShinyIds snap st.shinyIds
    typeUnlocks := syncTypeUnlocks T snap }

/-- `Math.max(0, totalServer - merged.size)` — the recount applied by the
`itemsReceived` handler (lines 904-919) and the storage-notify callback
(lines 804-824); `Nat` subtraction is the clamp. -/
def recalculatedCount (receivedItems : List Nat) (itemId : Nat)
    (used : Finset Nat) : Nat :=
  receivedItems.count itemId - used.card

/-- Observable outcome of a consumable-use operation: the new count, the new
`usedOn` ledger, the (possibly updated) `checkedIds`, the ids uploaded to
the shared server ledger, the emitted check requests, and the log lines. -/
structure UseResult where
  count : Nat
  used : Finset Nat
  checked : Finset Nat
  uploads : List Nat
  checkRequests : List Nat
  logs : List String
  deriving DecidableEq

/-- `useMasterBall` (GameContext.tsx lines 1179-1197): guarded by
`masterBalls > 0`; decrements the count directly, adds the id to the ledger,
uploads it when authenticated, calls `checkPokemon` (which inserts into
`checkedIds` and, when authenticated, sends the location check), and logs. -/
def useMasterBall (T : OffsetTable) (authenticated : Bool)
    (masterBalls : Nat) (usedMasterBalls checkedIds : Finset Nat)
    (pokemonId : Nat) : UseResult :=
  if masterBalls > 0 then
    { count := masterBalls - 1
      used := insert pokemonId usedMasterBalls
      checked := insert pokemonId checkedIds
      uploads := if authenticated then [pokemonId] else []
      checkRequests := if authenticated then [T.LOCATION_OFFSET + pokemonId] else []
      logs := ["Used a Master Ball on Pokemon #" ++ toString pokemonId ++ "!"] }
  else
    { count := masterBalls
      used := usedMasterBalls
      checked := checkedIds
      uploads := []
      checkRequests := []
      logs := [] }

/-- `usePokegear` (lines 1199-1216): like `useMasterBall` but without the
`checkPokemon` call. -/
def usePokegear (authenticated : Bool) (pokegears : Nat)
    (usedPokegears checkedIds : Finset Nat) (pokemonId : Nat) : UseResult :=
  if pokegears > 0 then
    { count := pokegears - 1
      used := insert pokemonId usedPokegears
      checked := checkedIds
      uploads := if authenticated then [pokemonId] else []
      checkRequests := []
      logs := ["Used a Pokegear on Pokemon #" ++ toString pokemonId ++ "!"] }
  else
    { count := pokegears
      used := usedPokegears
      checked := checkedIds
      uploads := []
      checkRequests := []
      logs := [] }

/-- `usePokedex` (lines 1218-1235): like `usePokegear`. -/
def usePokedex (authenticated : Bool) (pokedexes : Nat)
    (usedPokedexes checkedIds : Finset Nat) (pokemonId : Nat) : UseResult :=
  if pokedexes > 0 then
    { count := pokedexes - 1
      used := insert pokemonId usedPokedexes
      checked := checkedIds
      uploads := if authenticated then [pokemonId] else []
      checkRequests := []
      logs := ["Used a Pokedex on Pokemon #" ++ toString pokemonId ++ "!"] }
  else
    { count := pokedexes
      used := usedPokedexes
      checked := checkedIds
      uploads := []
      checkRequests := []
      logs := [] }

/-- The guessed-count shown by `GlobalGuessInput` (the progress stat): ids
`1..1025`, excluding the Oak's-Lab starter band, milestone pseudo-ids, and
every id currently in `releasedIds`. -/
def guessedCountDisplay (STARTER MILESTONE : Nat)
    (checkedIds releasedIds : Finset Nat) : Nat :=
  (checkedIds.filter
      (fun id =>
        (decide (1 ≤ id) && decide (id ≤ 1025) &&
          !(decide (STARTER ≤ id) && decide (id < STARTER + 20)) &&
          decide (id < MILESTONE) &&
          !(decide (id ∈ releasedIds))) = true)).card

/-- The auto-submit match filter of `GlobalGuessInput` for a name match:
an already-checked id is rejected unless it is released, and eligibility is
`canGuess` or membership in `releasedIds`. -/
def autoSubmitEligible (checkedIds releasedIds : Finset Nat)
    (canGuess : Bool) (id : Nat) : Bool :=
  !(decide (id ∈ checkedIds) && !(decide (id ∈ releasedIds))) &&
    (canGuess || decide (id ∈ releasedIds))

/-- The auto-submit action of `GlobalGuessInput` on a matched id: a released
id is only removed from `releasedIds` (no `checkPokemon` call, hence no
check request); otherwise `checkPokemon` runs (insert into `checkedIds` and
send the location check).  Result: new `checkedIds`, new `releasedIds`, and
the emitted check requests. -/
def autoSubmitMatched (T : OffsetTable) (checkedIds releasedIds : Finset Nat)
    (id : Nat) : Finset Nat × Finset Nat × List Nat :=
  if id ∈ releasedIds then (checkedIds, releasedIds.erase id, [])
  else (insert id checkedIds, releasedIds, [T.LOCATION_OFFSET + id])

/-- The item id of a Master Ball grant:
`ITEM_OFFSET + USEFUL_ITEM_OFFSET + 1` (GameContext.tsx lines 807, 906). -/
def masterBallItemId (T : OffsetTable) : Nat :=
  ITEM_OFFSET + T.USEFUL_ITEM_OFFSET + 1

/-- The standalone-mode generation gate (GameContext.tsx lines 567-572):
the creature's generation index exists and is enabled in the filter. -/
def generationEnabled (generationFilter : List Nat) (id : Nat) : Bool :=
  match GENERATIONS.findIdx? (fun g => decide (g.startId ≤ id) && decide (id ≤ g.endId)) with
  | none => false
  | some genIdx => decide (genIdx ∈ generationFilter)

/-- Concrete metadata store for the spec's eligibility example: creature 6
has the (lowercase, as stored) type list `["fire", "flying"]`. -/
def fireFlyingMeta : MetaStore :=
  fun i => if i = 6 then some ⟨["fire", "flying"]⟩ else none


/-! ## Claim theorems -/

/-- C4: after login, the new offset table is selected exactly when some id
of the `missing_locations` / `checked_locations` union lies in the reserved
band `[8560000, 8570000)`, the legacy table otherwise; and under the
selected table `toLocalId (toLocationId x) = x` for every local id. -/
theorem offset_detection_and_roundtrip (allLocs : List Nat) :
    ((∃ id ∈ allLocs, 8560000 ≤ id ∧ id < 8570000) → detectTable allLocs = newTable) ∧
    ((∀ id ∈ allLocs, ¬(8560000 ≤ id ∧ id < 8570000)) → detectTable allLocs = legacyTable) ∧
    (∀ x, toLocalId (detectTable allLocs) (toLocationId (detectTable allLocs) x) = x) := by
  refine ⟨?_, ?_, ?_⟩
  · rintro ⟨id, hmem, h1, h2⟩
    unfold detectTable
    rw [if_pos]
    unfold detectIsNewVersion
    rw [List.any_eq_true]
    exact ⟨id, hmem, by simp [h1, h2]⟩
  · intro h
    have hfalse : detectIsNewVersion allLocs = false := by
      unfold detectIsNewVersion
      rw [List.any_eq_false]
      intro x hx
      have := h x hx
      simp only [Bool.and_eq_true, decide_eq_true_eq, not_and]
      tauto
    simp [detectTable, hfalse]
  · intro x
    unfold toLocalId toLocationId
    omega

/-- Witness for C4 at concrete snapshots. -/
theorem offset_detection_and_roundtrip_witness :
    detectTable [8565000] = newTable ∧ detectTable [123] = legacyTable ∧
      toLocalId (detectTable [8565000]) (toLocationId (detectTable [8565000]) 42) = 42 :=
  ⟨(offset_detection_and_roundtrip [8565000]).1 ⟨8565000, by simp, by omega, by omega⟩,
   (offset_detection_and_roundtrip [123]).2.1 (by intro id h; simp at h; omega),
   (offset_detection_and_roundtrip [8565000]).2.2 42⟩

/-- C9: an id with no metadata entry is trivially eligible, in every mode
and regardless of the generation filter, the unlocked set and the type
locks: the fail-open check precedes every other gate. -/
theorem missing_metadata_fails_open (meta : MetaStore) (mode : Option GameMode)
    (gfilter : List Nat) (unlocked : Finset Nat) (tle : Bool)
    (tu : Finset String) (id : Nat) (hmeta : meta id = none) :
    isPokemonGuessable meta mode gfilter unlocked tle tu id = { canGuess := true } := by
  unfold isPokemonGuessable
  rw [hmeta]

/-- Witness for C9: the empty store, standalone mode, empty filter, type
locks on. -/
theorem missing_metadata_fails_open_witness :
    isPokemonGuessable emptyMetaStore (some GameMode.standalone) [] ∅ true ∅ 0
      = { canGuess := true } :=
  missing_metadata_fails_open emptyMetaStore (some GameMode.standalone) [] ∅ true ∅ 0 rfl

/-- C10: with an available count of zero, each of the three consumable-use
operations is a complete no-op: counts, ledgers and `checkedIds` unchanged,
no upload, no check request, no log entry. -/
theorem zero_count_use_noop (T : OffsetTable) (auth : Bool)
    (used checked : Finset Nat) (id : Nat) :
    useMasterBall T auth 0 used checked id =
      { count := 0, used := used, checked := checked,
        uploads := [], checkRequests := [], logs := [] } ∧
    usePokegear auth 0 used checked id =
      { count := 0, used := used, checked := checked,
        uploads := [], checkRequests := [], logs := [] } ∧
    usePokedex auth 0 used checked id =
      { count := 0, used := used, checked := checked,
        uploads := [], checkRequests := [], logs := [] } := by
  refine ⟨?_, ?_, ?_⟩ <;> simp [useMasterBall, usePokegear, usePokedex]

/-- C5 counterexample: with a snapshot carrying no shiny-upgrade item, the
post-connect `shinyIds` depends on the prior local state — two different
prior states yield different post-connect states, so the shiny set is not
replaced wholesale. -/
theorem connected_sync_shiny_retained_counterexample :
    (connectedSync ⟨∅, ∅, {25}, ∅⟩ ⟨[], [], []⟩).shinyIds ≠
      (connectedSync ⟨∅, ∅, ∅, ∅⟩ ⟨[], [], []⟩).shinyIds := by decide

/-- C5 amended: `checkedIds`, `unlockedIds` and `typeUnlocks` are replaced
wholesale from the snapshot (independent of prior state); `shinyIds` is
replaced wholesale only when the snapshot contains at least one
shiny-upgrade item (id 105000), and otherwise keeps its prior value. -/
theorem connected_sync_wholesale_amended (st1 st2 : ClientState) (snap : Snapshot) :
    (connectedSync st1 snap).checkedIds = (connectedSync st2 snap).checkedIds ∧
    (connectedSync st1 snap).unlockedIds = (connectedSync st2 snap).unlockedIds ∧
    (connectedSync st1 snap).typeUnlocks = (connectedSync st2 snap).typeUnlocks ∧
    (0 < snap.received_items.count 105000 →
      (connectedSync st1 snap).shinyIds = (connectedSync st2 snap).shinyIds) ∧
    (snap.received_items.count 105000 = 0 →
      (connectedSync st1 snap).shinyIds = st1.shinyIds) := by
  unfold connectedSync syncShinyIds
  refine ⟨rfl, rfl, rfl, ?_, ?_⟩
  · intro h
    simp only
    rw [if_pos h, if_pos h]
  · intro h
    simp only
    rw [if_neg (by omega)]

/-- Witness for C5 amended at a concrete snapshot with one shiny upgrade. -/
theorem connected_sync_wholesale_amended_witness :
    (connectedSync ⟨∅, ∅, {25}, ∅⟩ ⟨[], [], [105000]⟩).shinyIds =
      (connectedSync ⟨∅, ∅, ∅, ∅⟩ ⟨[], [], [105000]⟩).shinyIds ∧
    (connectedSync ⟨∅, ∅, {25}, ∅⟩ ⟨[], [], []⟩).shinyIds = ({25} : Finset Nat) :=
  ⟨(connected_sync_wholesale_amended ⟨∅, ∅, {25}, ∅⟩ ⟨∅, ∅, ∅, ∅⟩ ⟨[], [], [105000]⟩).2.2.2.1
      (by decide),
   (connected_sync_wholesale_amended ⟨∅, ∅, {25}, ∅⟩ ⟨∅, ∅, ∅, ∅⟩ ⟨[], [], []⟩).2.2.2.2
      (by decide)⟩

/-- C6 counterexample: `useMasterBall` decrements the count directly rather
than re-deriving it.  With 3 Master Balls received and ledger `{5}` the
available count is `max(0, 3 - 1) = 2`; using a Master Ball on creature 5
(already in the ledger) yields count 1 while the derived value from the
server total and the new ledger is still 2, so "available count always
equals serverTotalReceived - usedOn.size" fails. -/
theorem consumable_count_direct_decrement_counterexample :
    (useMasterBall legacyTable true 2 {5} ∅ 5).count = 1 ∧
    (useMasterBall legacyTable true 2 {5} ∅ 5).used = {5} ∧
    recalculatedCount
        [masterBallItemId legacyTable, masterBallItemId legacyTable, masterBallItemId legacyTable]
        (masterBallItemId legacyTable) {5} = 2 ∧
    (1 : Nat) ≠ 2 := by decide

/-- C6 amended: every recount (the `itemsReceived` handler and the
storage-notify callback) derives the count as
`max(0, serverTotalReceived - usedOn.size)`, so with a server total of 3
and a one-entry ledger the count is exactly 2; `useMasterBall` decrements
the count directly and inserts into the ledger, which coincides with
re-derivation exactly when the target id was not already in the ledger. -/
theorem consumable_count_derived_amended (T : OffsetTable) (auth : Bool)
    (items : List Nat) (used checked : Finset Nat) (id : Nat)
    (hfresh : id ∉ used)
    (hpos : 0 < recalculatedCount items (masterBallItemId T) used) :
    (useMasterBall T auth (recalculatedCount items (masterBallItemId T) used) used checked id).count
      = recalculatedCount items (masterBallItemId T)
          (useMasterBall T auth (recalculatedCount items (masterBallItemId T) used) used checked id).used ∧
    (items.count (masterBallItemId T) = 3 → used.card = 1 →
      recalculatedCount items (masterBallItemId T) used = 2) := by
  constructor
  · unfold useMasterBall
    rw [if_pos hpos]
    simp only
    unfold recalculatedCount at hpos ⊢
    rw [Finset.card_insert_of_not_mem hfresh]
    omega
  · intro h3 h1
    unfold recalculatedCount
    omega

/-- Witness for C6 amended: 3 received, empty ledger, fresh id. -/
theorem consumable_count_derived_amended_witness :
    (useMasterBall legacyTable true
        (recalculatedCount
          [masterBallItemId legacyTable, masterBallItemId legacyTable, masterBallItemId legacyTable]
          (masterBallItemId legacyTable) ∅) ∅ ∅ 7).count
      = recalculatedCount
          [masterBallItemId legacyTable, masterBallItemId legacyTable, masterBallItemId legacyTable]
          (masterBallItemId legacyTable)
          (useMasterBall legacyTable true
            (recalculatedCount
              [masterBallItemId legacyTable, masterBallItemId legacyTable, masterBallItemId legacyTable]
              (masterBallItemId legacyTable) ∅) ∅ ∅ 7).used :=
  (consumable_count_derived_amended legacyTable true
    [masterBallItemId legacyTable, masterBallItemId legacyTable, masterBallItemId legacyTable]
    ∅ ∅ 7 (by decide) (by decide)).1

/-- C8 counterexample: with the legacy table active, the global milestone
for threshold 20 has local pseudo-id `MILESTONE_OFFSET + 20 = 1020`, which
is a real base creature id (the base dex id space runs to 1025), so the
claimed collision-freedom fails for the legacy offset table. -/
theorem pseudo_id_collision_counterexample :
    20 ∈ globalMilestonesList ∧
    globalPseudoId legacyTable 20 = 1020 ∧
    (1 ≤ 1020 ∧ 1020 ≤ 1025) := by decide


/-- Every threshold in the global milestone list is at most 383. -/
lemma globalMilestones_le : ∀ t ∈ globalMilestonesList, t ≤ 383 := by decide

/-- Componentwise sublists give a sublist of flat-maps. -/
lemma flatMap_sublist {α β : Type} (l : List α) (f g : α → List β)
    (h : ∀ a ∈ l, List.Sublist (f a) (g a)) :
    List.Sublist (l.flatMap f) (l.flatMap g) := by
  induction l with
  | nil => simp
  | cons x xs ih =>
    simp only [List.flatMap_cons]
    exact (h x (List.mem_cons_self x xs)).append
      (ih (fun a ha => h a (List.mem_cons_of_mem x ha)))

/-- Every deriver run emits a sublist of the fixed candidate pseudo-ids. -/
lemma deriveLocals_sublist (meta : MetaStore) (T : OffsetTable)
    (tle : Bool) (tu : Finset String) (checked : Finset Nat) :
    List.Sublist (deriveLocals meta T tle tu checked) (candidateLocals T) := by
  unfold deriveLocals candidateLocals
  apply List.Sublist.append
  · unfold globalLocals
    exact (List.filter_sublist _).map _
  · unfold typeLocals
    apply flatMap_sublist
    intro p hp
    unfold typeLocalsFor
    split
    · exact List.nil_sublist _
    · exact (List.filter_sublist _).map _

set_option maxRecDepth 40000 in
/-- The candidate pseudo-ids of the legacy table are pairwise distinct. -/
lemma candidateLocals_nodup_legacy : (candidateLocals legacyTable).Nodup := by decide

set_option maxRecDepth 40000 in
/-- The candidate pseudo-ids of the new table are pairwise distinct. -/
lemma candidateLocals_nodup_new : (candidateLocals newTable).Nodup := by decide

/-- One deriver run never emits the same pseudo-id twice. -/
lemma deriveLocals_nodup (meta : MetaStore) (T : OffsetTable)
    (tle : Bool) (tu : Finset String) (checked : Finset Nat)
    (hT : T = legacyTable ∨ T = newTable) :
    (deriveLocals meta T tle tu checked).Nodup := by
  rcases hT with rfl | rfl
  · exact (deriveLocals_sublist meta legacyTable tle tu checked).nodup
      candidateLocals_nodup_legacy
  · exact (deriveLocals_sublist meta newTable tle tu checked).nodup
      candidateLocals_nodup_new

/-- The deriver only emits pseudo-ids absent from the checked snapshot. -/
lemma deriveLocals_not_mem_checked (meta : MetaStore) (T : OffsetTable)
    (tle : Bool) (tu : Finset String) (checked : Finset Nat) (l : Nat)
    (hl : l ∈ deriveLocals meta T tle tu checked) : l ∉ checked := by
  unfold deriveLocals at hl
  rcases List.mem_append.mp hl with h | h
  · unfold globalLocals at h
    obtain ⟨c, hc, heq⟩ := List.mem_map.mp h
    have hcond := (List.mem_filter.mp hc).2
    simp only [Bool.and_eq_true, Bool.not_eq_true', decide_eq_false_iff_not] at hcond
    rw [← heq]
    exact hcond.2
  · unfold typeLocals at h
    obtain ⟨p, hp, hmem⟩ := List.mem_flatMap.mp h
    unfold typeLocalsFor at hmem
    split at hmem
    · simp at hmem
    · obtain ⟨step, hstep, heq⟩ := List.mem_map.mp hmem
      have hcond := (List.mem_filter.mp hstep).2
      simp only [Bool.and_eq_true, Bool.not_eq_true', decide_eq_false_iff_not] at hcond
      rw [← heq]
      exact hcond.2

/-- Failing the catch-count filter, spelled out. -/
lemma isCountedCatch_eq_false_iff (T : OffsetTable) (id : Nat) :
    isCountedCatch T id = false ↔
      (T.STARTER_OFFSET ≤ id ∧ id < T.STARTER_OFFSET + 20) ∨
      (T.MILESTONE_OFFSET ≤ id ∧ id < T.MILESTONE_OFFSET + 2000) ∨
      T.TYPE_MILESTONE_OFFSET ≤ id := by
  simp only [isCountedCatch, Bool.and_eq_false_iff, Bool.not_eq_false',
    Bool.not_eq_true', Bool.and_eq_true, decide_eq_true_eq,
    decide_eq_false_iff_not, Bool.and_eq_false_iff, not_and, not_le, not_lt]
  omega

/-- Every emitted pseudo-id fails the catch-count filter, so emissions never
feed back into the milestone counts. -/
lemma deriveLocals_not_counted (meta : MetaStore) (T : OffsetTable)
    (tle : Bool) (tu : Finset String) (checked : Finset Nat) (l : Nat)
    (hl : l ∈ deriveLocals meta T tle tu checked) :
    isCountedCatch T l = false := by
  rw [isCountedCatch_eq_false_iff]
  unfold deriveLocals at hl
  rcases List.mem_append.mp hl with h | h
  · unfold globalLocals at h
    obtain ⟨c, hc, heq⟩ := List.mem_map.mp h
    have hle : c ≤ 383 := globalMilestones_le c (List.mem_filter.mp hc).1
    have hgc := globalPseudoId_eq T c
    right; left
    omega
  · unfold typeLocals at h
    obtain ⟨p, hp, hmem⟩ := List.mem_flatMap.mp h
    unfold typeLocalsFor at hmem
    split at hmem
    · simp at hmem
    · obtain ⟨step, hstep, heq⟩ := List.mem_map.mp hmem
      have htp := typePseudoId_eq T p.1 step
      right; right
      omega

/-- Adding ids that fail the catch-count filter leaves `totalCatches`
unchanged. -/
lemma totalCatches_union_not_counted (T : OffsetTable) (checked E : Finset Nat)
    (h : ∀ l ∈ E, isCountedCatch T l = false) :
    totalCatches T (checked ∪ E) = totalCatches T checked := by
  have hE : Finset.filter (fun id => isCountedCatch T id = true) E = ∅ := by
    rw [Finset.filter_eq_empty_iff]
    intro l hl
    rw [h l hl]
    simp
  unfold totalCatches
  rw [Finset.filter_union, hE, Finset.union_empty]

/-- Adding ids that fail the catch-count filter leaves every type count
unchanged. -/
lemma typeCount_union_not_counted (meta : MetaStore) (T : OffsetTable)
    (checked E : Finset Nat) (name : String)
    (h : ∀ l ∈ E, isCountedCatch T l = false) :
    typeCount meta T (checked ∪ E) name = typeCount meta T checked name := by
  have hE : Finset.filter (fun id => isCountedCatch T id = true) E = ∅ := by
    rw [Finset.filter_eq_empty_iff]
    intro l hl
    rw [h l hl]
    simp
  unfold typeCount
  rw [Finset.filter_union, hE, Finset.union_empty]

/-- Re-running the deriver on its own result emits nothing: the emitted
pseudo-ids change no count, and every candidate still passing its threshold
was emitted by the first run and is now checked. -/
lemma deriveLocals_idem (meta : MetaStore) (T : OffsetTable)
    (tle : Bool) (tu : Finset String) (checked : Finset Nat) :
    deriveLocals meta T tle tu ((deriveMilestones meta T tle tu checked).2) = [] := by
  have hnc : ∀ l ∈ (deriveLocals meta T tle tu checked).toFinset,
      isCountedCatch T l = false := by
    intro l hl
    exact deriveLocals_not_counted meta T tle tu checked l (List.mem_toFinset.mp hl)
  have htotal : totalCatches T ((deriveMilestones meta T tle tu checked).2)
      = totalCatches T checked := by
    unfold deriveMilestones
    exact totalCatches_union_not_counted T checked _ hnc
  have htype : ∀ name, typeCount meta T ((deriveMilestones meta T tle tu checked).2) name
      = typeCount meta T checked name := by
    intro name
    unfold deriveMilestones
    exact typeCount_union_not_counted meta T checked _ name hnc
  have hsub : ∀ l ∈ deriveLocals meta T tle tu checked,
      l ∈ (deriveMilestones meta T tle tu checked).2 := by
    intro l hl
    unfold deriveMilestones
    exact Finset.mem_union_right _ (List.mem_toFinset.mpr hl)
  have hchk : ∀ l ∈ checked, l ∈ (deriveMilestones meta T tle tu checked).2 := by
    intro l hl
    unfold deriveMilestones
    exact Finset.mem_union_left _ hl
  unfold deriveLocals
  rw [List.append_eq_nil]
  constructor
  · unfold globalLocals
    rw [List.map_eq_nil_iff, List.filter_eq_nil_iff]
    intro c hc hcond
    simp only [Bool.and_eq_true, decide_eq_true_eq, Bool.not_eq_true',
      decide_eq_false_iff_not, htotal] at hcond
    have hnotchecked : globalPseudoId T c ∉ checked := fun hmem =>
      hcond.2 (hchk _ hmem)
    apply hcond.2
    apply hsub
    unfold deriveLocals
    apply List.mem_append_left
    unfold globalLocals
    apply List.mem_map_of_mem
    rw [List.mem_filter]
    exact ⟨hc, by simp [hcond.1, hnotchecked]⟩
  · unfold typeLocals
    rw [List.flatMap_eq_nil_iff]
    intro p hp
    unfold typeLocalsFor
    split
    · rfl
    · rw [List.map_eq_nil_iff, List.filter_eq_nil_iff]
      intro step hstep hcond
      simp only [Bool.and_eq_true, decide_eq_true_eq, Bool.not_eq_true',
        decide_eq_false_iff_not, htype] at hcond
      have hnotchecked : typePseudoId T p.1 step ∉ checked := fun hmem =>
        hcond.2 (hchk _ hmem)
      apply hcond.2
      apply hsub
      unfold deriveLocals
      apply List.mem_append_right
      unfold typeLocals
      apply List.mem_flatMap_of_mem hp
      unfold typeLocalsFor
      rw [if_neg (by assumption)]
      apply List.mem_map_of_mem
      rw [List.mem_filter]
      exact ⟨hstep, by simp [hcond.1, hnotchecked]⟩

/-- Session invariant: the accumulated emission list stays duplicate-free,
and every emitted request is an offset translation of a pseudo-id already in
the checked set. -/
lemma session_invariant (meta : MetaStore) (T : OffsetTable)
    (tle : Bool) (tu : Finset String)
    (hT : T = legacyTable ∨ T = newTable) :
    ∀ (ops : List Nat) (st : Finset Nat × List Nat),
      st.2.Nodup →
      (∀ a ∈ st.2, T.LOCATION_OFFSET ≤ a ∧ a - T.LOCATION_OFFSET ∈ st.1) →
      ((ops.foldl (sessionStep meta T tle tu) st).2.Nodup ∧
        ∀ a ∈ (ops.foldl (sessionStep meta T tle tu) st).2,
          T.LOCATION_OFFSET ≤ a ∧
            a - T.LOCATION_OFFSET ∈ (ops.foldl (sessionStep meta T tle tu) st).1) := by
  intro ops
  induction ops with
  | nil => intro st h1 h2; exact ⟨h1, h2⟩
  | cons id rest ih =>
    intro st h1 h2
    rw [List.foldl_cons]
    apply ih
    · -- the new emission list is still duplicate-free
      unfold sessionStep deriveMilestones
      simp only
      apply List.Nodup.append h1
      · exact (deriveLocals_nodup meta T tle tu (insert id st.1) hT).map
          (fun a b hab => by omega)
      · intro a ha hb
        obtain ⟨hle, hmem⟩ := h2 a ha
        obtain ⟨l, hl, heq⟩ := List.mem_map.mp hb
        have hnot := deriveLocals_not_mem_checked meta T tle tu (insert id st.1) l hl
        have : l = a - T.LOCATION_OFFSET := by omega
        rw [this] at hnot
        exact hnot (Finset.mem_insert_of_mem hmem)
    · -- the invariant is preserved by one step
      unfold sessionStep deriveMilestones
      simp only
      intro a ha
      rcases List.mem_append.mp ha with h | h
      · obtain ⟨hle, hmem⟩ := h2 a h
        exact ⟨hle, Finset.mem_union_left _ (Finset.mem_insert_of_mem hmem)⟩
      · obtain ⟨l, hl, heq⟩ := List.mem_map.mp h
        refine ⟨by omega, ?_⟩
        have : a - T.LOCATION_OFFSET = l := by omega
        rw [this]
        exact Finset.mem_union_right _ (List.mem_toFinset.mpr hl)

/-- C1: milestone derivation is monotone and idempotent.  Over any session
(a sequence of `markChecked` calls each followed by a deriver run, from any
initial checked set) the accumulated check-request list has no duplicate, so
each milestone pseudo-id is emitted and added to `checkedIds` at most once;
and re-running the scan on a deriver result with no new checks emits zero
new requests. -/
theorem milestone_deriver_monotone_idempotent (meta : MetaStore)
    (tle : Bool) (tu : Finset String) (T : OffsetTable)
    (hT : T = legacyTable ∨ T = newTable)
    (init : Finset Nat) (ops : List Nat) :
    (session meta T tle tu init ops).2.Nodup ∧
    (∀ checked : Finset Nat,
      (deriveMilestones meta T tle tu
        ((deriveMilestones meta T tle tu checked).2)).1 = []) := by
  constructor
  · exact (session_invariant meta T tle tu hT ops (init, []) (by simp) (by simp)).1
  · intro checked
    have h := deriveLocals_idem meta T tle tu checked
    unfold deriveMilestones at h ⊢
    simp only at h ⊢
    rw [h]
    rfl

/-- Witness for C1: a concrete three-check session on the legacy table, and
idempotence at the empty set. -/
theorem milestone_deriver_monotone_idempotent_witness :
    (session emptyMetaStore legacyTable false ∅ ∅ [1, 2, 3]).2.Nodup ∧
    (deriveMilestones emptyMetaStore legacyTable false ∅
      ((deriveMilestones emptyMetaStore legacyTable false ∅ ∅).2)).1 = [] :=
  ⟨(milestone_deriver_monotone_idempotent emptyMetaStore false ∅ legacyTable
      (Or.inl rfl) ∅ [1, 2, 3]).1,
   (milestone_deriver_monotone_idempotent emptyMetaStore false ∅ legacyTable
      (Or.inl rfl) ∅ [1, 2, 3]).2 ∅⟩

/-- C8 amended: for both offset tables the two milestone families are
injective and mutually collision-free (all derivable local pseudo-ids are
pairwise distinct); under the new table no pseudo-id falls in the base
creature range `1..1025`; under the legacy table none falls in `1..1000`,
but the thresholds 1, 5, 10, 20 give pseudo-ids 1001, 1005, 1010, 1020
inside `1..1025`. -/
theorem pseudo_id_derivation_amended :
    (candidateLocals legacyTable).Nodup ∧
    (candidateLocals newTable).Nodup ∧
    (candidateLocals newTable).all
        (fun l => !(decide (1 ≤ l) && decide (l ≤ 1025))) = true ∧
    (candidateLocals legacyTable).all
        (fun l => !(decide (1 ≤ l) && decide (l ≤ 1000))) = true ∧
    (candidateLocals legacyTable).filter
        (fun l => decide (1 ≤ l) && decide (l ≤ 1025)) = [1001, 1005, 1010, 1020] := by
  refine ⟨candidateLocals_nodup_legacy, candidateLocals_nodup_new, by decide, by decide, by decide⟩

/-- C7 counterexample: the milestone total of `checkExtendedLocations` does
not consult `releasedIds` at all.  With `checked = {1,2,3,4}` and creature 4
released, the deriver still counts 4 catches (adjusted 1) and emits the
threshold-1 global milestone — whereas excluding the released id would give
adjusted 0 and no emission.  The displayed guessed-count, by contrast, does
exclude it. -/
theorem released_still_counted_counterexample :
    totalCatches legacyTable {1, 2, 3, 4} = 4 ∧
    (deriveMilestones emptyMetaStore legacyTable false ∅ {1, 2, 3, 4}).1 = [8572001] ∧
    guessedCountDisplay 500 1000 {1, 2, 3, 4} {4} = 3 := by decide

/-- C7 amended: a released id is excluded from the displayed guessed-count
(it contributes nothing), but still counts toward the deriver's global
milestone total; re-guessing a released creature passes the auto-submit
eligibility filter, removes the id from `releasedIds`, and sends no second
check request (the id stays checked, so it is never double-counted). -/
theorem released_reguess_amended (STARTER MILESTONE : Nat) (T : OffsetTable)
    (checked released : Finset Nat) (canGuess : Bool) (id : Nat)
    (hrel : id ∈ released) :
    guessedCountDisplay STARTER MILESTONE checked released
      = guessedCountDisplay STARTER MILESTONE (checked.erase id) released ∧
    autoSubmitEligible checked released canGuess id = true ∧
    autoSubmitMatched T checked released id = (checked, released.erase id, []) ∧
    (id ∈ checked → isCountedCatch T id = true →
      totalCatches T checked = totalCatches T (checked.erase id) + 1) := by
  refine ⟨?_, ?_, ?_, ?_⟩
  · unfold guessedCountDisplay
    rw [Finset.filter_erase, Finset.erase_eq_of_not_mem]
    simp [hrel]
  · simp [autoSubmitEligible, hrel]
  · simp [autoSubmitMatched, hrel]
  · intro hc hcount
    unfold totalCatches
    rw [Finset.filter_erase]
    have hmem : id ∈ checked.filter (fun i => isCountedCatch T i = true) :=
      Finset.mem_filter.mpr ⟨hc, hcount⟩
    exact (Finset.card_erase_add_one hmem).symm

/-- Witness for C7 amended: `checked = {1, 2}`, `released = {2}`. -/
theorem released_reguess_amended_witness :
    guessedCountDisplay 500 1000 {1, 2} {2}
      = guessedCountDisplay 500 1000 (Finset.erase {1, 2} 2) {2} ∧
    autoSubmitMatched legacyTable {1, 2} {2} 2 = ({1, 2}, Finset.erase {2} 2, []) ∧
    totalCatches legacyTable {1, 2} = totalCatches legacyTable (Finset.erase {1, 2} 2) + 1 :=
  ⟨(released_reguess_amended 500 1000 legacyTable {1, 2} {2} false 2 (by decide)).1,
   (released_reguess_amended 500 1000 legacyTable {1, 2} {2} false 2 (by decide)).2.2.1,
   (released_reguess_amended 500 1000 legacyTable {1, 2} {2} false 2 (by decide)).2.2.2
     (by decide) (by decide)⟩

/-- C3: the eligibility evaluator follows the specified decision order with
first-failing-check-wins (given the id has metadata): in standalone mode the
only gate is the generation filter (the result is independent of the
unlocked set and type locks, and `canGuess` equals the generation-enabled
test); otherwise a non-unlocked id is blocked with the never-found reason;
otherwise with type locks on and missing types, the result lists exactly
the missing (capitalized) type names; otherwise it is eligible.  For
`unlocked = {6}`, types `{Fire, Flying}`, `typeUnlocks = {Fire}`, the
missing list is exactly `["Flying"]`. -/
theorem eligibility_decision_order (meta : MetaStore) (d : PokeMeta)
    (mode : Option GameMode) (gfilter : List Nat) (unlocked : Finset Nat)
    (tle : Bool) (tu : Finset String) (id : Nat)
    (hmeta : meta id = some d) :
    (∀ (unlocked2 : Finset Nat) (tle2 : Bool) (tu2 : Finset String),
        isPokemonGuessable meta (some GameMode.standalone) gfilter unlocked2 tle2 tu2 id
          = isPokemonGuessable meta (some GameMode.standalone) gfilter unlocked tle tu id) ∧
    ((isPokemonGuessable meta (some GameMode.standalone) gfilter unlocked tle tu id).canGuess
        = generationEnabled gfilter id) ∧
    (mode ≠ some GameMode.standalone → id ∉ unlocked →
        isPokemonGuessable meta mode gfilter unlocked tle tu id
          = { canGuess := false, reason := some "You have not found this Pokemon yet!",
              missingPokemon := true }) ∧
    (mode ≠ some GameMode.standalone → id ∈ unlocked → tle = true →
        d.types.filter (fun t => !(decide (capitalizeType t ∈ tu))) ≠ [] →
        isPokemonGuessable meta mode gfilter unlocked tle tu id
          = { canGuess := false,
              reason := some ("Missing Type Keys: " ++ String.intercalate ", "
                ((d.types.filter (fun t => !(decide (capitalizeType t ∈ tu)))).map capitalizeType)),
              missingTypes := some
                ((d.types.filter (fun t => !(decide (capitalizeType t ∈ tu)))).map capitalizeType) }) ∧
    (mode ≠ some GameMode.standalone → id ∈ unlocked →
        (tle = false ∨ d.types.filter (fun t => !(decide (capitalizeType t ∈ tu))) = []) →
        isPokemonGuessable meta mode gfilter unlocked tle tu id = { canGuess := true }) ∧
    isPokemonGuessable fireFlyingMeta (some GameMode.archipelago) [] {6} true {"Fire"} 6
      = { canGuess := false, reason := some "Missing Type Keys: Flying",
          missingTypes := some ["Flying"] } := by
  refine ⟨?_, ?_, ?_, ?_, ?_, by decide⟩
  · intro unlocked2 tle2 tu2
    simp [isPokemonGuessable, hmeta]
  · simp only [isPokemonGuessable, hmeta, generationEnabled]
    rw [if_pos trivial]
    cases h : GENERATIONS.findIdx? (fun g => decide (g.startId ≤ id) && decide (id ≤ g.endId)) with
    | none => rfl
    | some genIdx =>
      by_cases hg : genIdx ∈ gfilter
      · simp [hg]
      · simp [hg]
  · intro hmode hun
    simp only [isPokemonGuessable, hmeta]
    rw [if_neg hmode, if_pos hun]
  · intro hmode hun htle hne
    simp only [isPokemonGuessable, hmeta]
    rw [if_neg hmode, if_neg (fun h => h hun), htle, if_pos rfl,
      if_pos (List.length_pos.mpr hne)]
  · intro hmode hun hcase
    simp only [isPokemonGuessable, hmeta]
    rw [if_neg hmode, if_neg (fun h => h hun)]
    rcases hcase with h | h
    · rw [h, if_neg (by simp)]
    · rw [h]
      cases tle
      · rw [if_neg (by simp)]
      · rw [if_pos rfl]
        exact if_neg (by simp [h])

/-- Witness for C3: the never-found branch at a concrete state, and the
blocked-by-type-locks branch of the spec example. -/
theorem eligibility_decision_order_witness :
    isPokemonGuessable fireFlyingMeta (some GameMode.archipelago) [] ∅ false ∅ 6
      = { canGuess := false, reason := some "You have not found this Pokemon yet!",
          missingPokemon := true } :=
  (eligibility_decision_order fireFlyingMeta ⟨["fire", "flying"]⟩ (some GameMode.archipelago)
      [] ∅ false ∅ 6 rfl).2.2.1 (by decide) (by decide)

/-- Under the new table, every base creature id `1..1025` passes the
catch-counting filter. -/
lemma newTable_base_counted (id : Nat) (h1 : 1 ≤ id) (h2 : id ≤ 1025) :
    isCountedCatch newTable id = true := by
  simp only [isCountedCatch, newTable, Bool.and_eq_true, Bool.not_eq_true',
    Bool.and_eq_false_iff, decide_eq_false_iff_not, not_le, not_lt, decide_eq_true_eq]
  omega

/-- Every type-milestone emission is at least `TYPE_MILESTONE_OFFSET`. -/
lemma typeLocals_ge (meta : MetaStore) (T : OffsetTable) (tle : Bool)
    (tu : Finset String) (checked : Finset Nat) (l : Nat)
    (hl : l ∈ typeLocals meta T tle tu checked) :
    T.TYPE_MILESTONE_OFFSET ≤ l := by
  unfold typeLocals at hl
  obtain ⟨p, hp, hmem⟩ := List.mem_flatMap.mp hl
  unfold typeLocalsFor at hmem
  split at hmem
  · simp at hmem
  · obtain ⟨step, hstep, heq⟩ := List.mem_map.mp hmem
    rw [← heq, typePseudoId_eq]
    omega

/-- A global pseudo-id for a listed threshold is emitted exactly when the
adjusted count reaches the threshold and the pseudo-id is not yet checked. -/
lemma mem_globalLocals_iff (T : OffsetTable) (checked : Finset Nat) (t : Nat)
    (ht : t ∈ globalMilestonesList) :
    globalPseudoId T t ∈ globalLocals T checked ↔
      (t ≤ totalCatches T checked - 3 ∧ globalPseudoId T t ∉ checked) := by
  unfold globalLocals
  simp only [List.mem_map, List.mem_filter]
  constructor
  · rintro ⟨c, ⟨hc, hcond⟩, heq⟩
    have hct : c = t := by
      have h1 := globalPseudoId_eq T c
      have h2 := globalPseudoId_eq T t
      omega
    subst hct
    simp only [Bool.and_eq_true, decide_eq_true_eq, Bool.not_eq_true',
      decide_eq_false_iff_not] at hcond
    exact hcond
  · intro h
    exact ⟨t, ⟨ht, by simp [h.1, h.2]⟩, rfl⟩

/-- Scenario computation: thirteen base-creature checks emit the
threshold-10 milestone request (ap id 8570010) exactly once. -/
lemma session_scenario_13 :
    ((session emptyMetaStore newTable false ∅ ∅
        [1, 2, 3, 4, 5, 6, 7, 8, 9, 10, 11, 12, 13]).2.count 8570010 = 1) := by decide

/-- Scenario computation: a fourteenth check does not re-emit it. -/
lemma session_scenario_14 :
    ((session emptyMetaStore newTable false ∅ ∅
        [1, 2, 3, 4, 5, 6, 7, 8, 9, 10, 11, 12, 13, 14]).2.count 8570010 = 1) := by decide

/-- C2: under the new table the global-milestone count counts exactly the
checked base-creature ids (given every checked id is a base creature id or
a skipped pseudo/starter id); a listed threshold `t` is emitted exactly when
`max(0, total - 3) >= t` (clamped `Nat` subtraction) and its pseudo-id is
not yet checked; and checking base creatures until `total = 13` emits the
threshold-10 milestone exactly once, with no re-emission on the
fourteenth. -/
theorem global_milestone_behavior (meta : MetaStore) (tle : Bool) (tu : Finset String) :
    (∀ checked : Finset Nat,
        (∀ id ∈ checked, (1 ≤ id ∧ id ≤ 1025) ∨ isCountedCatch newTable id = false) →
        totalCatches newTable checked
          = (checked.filter (fun id => (decide (1 ≤ id) && decide (id ≤ 1025)) = true)).card) ∧
    (∀ (checked : Finset Nat) (t : Nat), t ∈ globalMilestonesList →
        (toLocationId newTable (globalPseudoId newTable t)
            ∈ (deriveMilestones meta newTable tle tu checked).1 ↔
          (t ≤ totalCatches newTable checked - 3 ∧ globalPseudoId newTable t ∉ checked))) ∧
    ((session emptyMetaStore newTable false ∅ ∅
        [1, 2, 3, 4, 5, 6, 7, 8, 9, 10, 11, 12, 13]).2.count
          (toLocationId newTable (globalPseudoId newTable 10)) = 1) ∧
    ((session emptyMetaStore newTable false ∅ ∅
        [1, 2, 3, 4, 5, 6, 7, 8, 9, 10, 11, 12, 13, 14]).2.count
          (toLocationId newTable (globalPseudoId newTable 10)) = 1) := by
  refine ⟨?_, ?_, session_scenario_13, session_scenario_14⟩
  · intro checked h
    unfold totalCatches
    congr 1
    apply Finset.filter_congr
    intro id hid
    rcases h id hid with ⟨h1, h2⟩ | hf
    · simp [newTable_base_counted id h1 h2, h1, h2]
    · have hnb : ¬(1 ≤ id ∧ id ≤ 1025) := by
        intro hc
        rw [newTable_base_counted id hc.1 hc.2] at hf
        cases hf
      simp only [hf, Bool.and_eq_true, decide_eq_true_eq]
      constructor
      · intro hx; cases hx
      · intro hx; exact absurd ⟨hx.1, hx.2⟩ hnb
  · intro checked t ht
    have hle : t ≤ 383 := globalMilestones_le t ht
    unfold deriveMilestones
    simp only [deriveLocals, List.map_append, List.mem_append]
    constructor
    · rintro (h | h)
      · obtain ⟨l, hl, heq⟩ := List.mem_map.mp h
        have hlt : l = globalPseudoId newTable t := by
          unfold toLocationId at heq
          omega
        rw [hlt] at hl
        exact (mem_globalLocals_iff newTable checked t ht).mp hl
      · obtain ⟨l, hl, heq⟩ := List.mem_map.mp h
        have hge := typeLocals_ge meta newTable tle tu checked l hl
        have hub : globalPseudoId newTable t ≤ 10383 := by
          rw [globalPseudoId_eq]
          have hm : newTable.MILESTONE_OFFSET = 10000 := rfl
          omega
        have ht2 : newTable.TYPE_MILESTONE_OFFSET = 20000 := rfl
        unfold toLocationId at heq
        exfalso
        omega
    · intro hcond
      left
      exact List.mem_map.mpr
        ⟨globalPseudoId newTable t, (mem_globalLocals_iff newTable checked t ht).mpr hcond, rfl⟩

/-- Witness for C2 at `checked = {1, 2, 3, 4}`. -/
theorem global_milestone_behavior_witness :
    totalCatches newTable {1, 2, 3, 4}
      = (({1, 2, 3, 4} : Finset Nat).filter
          (fun id => (decide (1 ≤ id) && decide (id ≤ 1025)) = true)).card ∧
    toLocationId newTable (globalPseudoId newTable 1)
      ∈ (deriveMilestones emptyMetaStore newTable false ∅ {1, 2, 3, 4}).1 :=
  ⟨(global_milestone_behavior emptyMetaStore false ∅).1 {1, 2, 3, 4} (by decide),
   ((global_milestone_behavior emptyMetaStore false ∅).2.1 {1, 2, 3, 4} 1
      (by decide)).mpr (by decide)⟩

end Pokepelago

